import Mathlib

/-!
Shallow embedding of `mcp_client.py` (TravelMcpClient): a JSON-RPC 2.0 HTTP
client with per-domain search wrappers, a result formatter and interactive
input handlers.  Python dictionaries are modelled as association lists in
insertion order (the order the source inserts keys); Python JSON values are
modelled by the inductive `Json`; the network is abstracted as a function
from the posted payload to an `HttpOutcome`.
-/

/-- A JSON value as produced by Python's `json` module on the data this
client handles.  Numbers are modelled as integers: the client only ever
places integers (`id`, `adults`, `maxResults`) in requests, and the modelled
parser below accepts integer numerals only. -/
inductive Json where
  | null
  | bool (b : Bool)
  | num (n : Int)
  | str (s : String)
  | arr (xs : List Json)
  | obj (fields : List (String × Json))

/-- Lookup in an association list modelling a Python dict
(`d[k]` / `k in d`); the builders below never create duplicate keys. -/
def jlookup (fields : List (String × Json)) (k : String) : Option Json :=
  match fields with
  | [] => none
  | (k', v) :: rest => if k' = k then some v else jlookup rest k

/-- `jget j k` models `j[k]` / `k in j` for a dict-valued `j`; for non-dict
values it returns `none` (Python would raise or, for lists/strings, perform
membership tests — paths the client never exercises with well-formed
server responses). -/
def jget (j : Json) (k : String) : Option Json :=
  match j with
  | .obj fields => jlookup fields k
  | _ => none

/-- The outcome of `self.session.post(...)` as seen by `send_request`:
either the post raised a `requests.exceptions.RequestException`
(connection refused, timeout, too many redirects, ...) carrying a message,
or an HTTP response arrived with a status code, the message that
`raise_for_status()` would put in its `HTTPError`, and a body that either
parses as JSON or fails to (`.error` carries the decode error's message;
in requests >= 2.27 the decode error is a `RequestException` subclass and
hence caught by the client). -/
inductive HttpOutcome where
  | exn (msg : String)
  | response (status : Nat) (statusMsg : String) (body : Except String Json)

/-- A transport: what the network does with a posted payload.  The payload
is the JSON-RPC envelope dict. -/
def Transport := List (String × Json) → HttpOutcome

/-- The JSON-RPC envelope built at the top of `send_request`
(mcp_client.py lines 19-25): always `jsonrpc`, `id`, `method`; `params` is
appended only when `if params:` holds, i.e. when the dict is neither
`None` nor empty. -/
def build_payload (method : String) (params : Option (List (String × Json)))
    (request_id : Int) : List (String × Json) :=
  let payload := [("jsonrpc", Json.str "2.0"), ("id", Json.num request_id),
                  ("method", Json.str method)]
  match params with
  | some [] => payload
  | some p => payload ++ [("params", Json.obj p)]
  | none => payload

/-- The `try`/`except` body of `send_request` (lines 27-36):
`raise_for_status()` raises for status codes in `[400, 600)`;
`response.json()` raises on a malformed body; any
`requests.exceptions.RequestException` is converted into
`{"error": f"Request failed: {e}"}`. -/
def handle_outcome (o : HttpOutcome) : Json :=
  match o with
  | .exn msg => .obj [("error", .str ("Request failed: " ++ msg))]
  | .response status statusMsg body =>
    if 400 ≤ status ∧ status < 600 then
      .obj [("error", .str ("Request failed: " ++ statusMsg))]
    else
      match body with
      | .error msg => .obj [("error", .str ("Request failed: " ++ msg))]
      | .ok j => j

/-- `TravelMcpClient.send_request` (lines 17-36), with the network
abstracted as `transport`. -/
def send_request (transport : Transport) (method : String)
    (params : Option (List (String × Json))) (request_id : Int) : Json :=
  handle_outcome (transport (build_payload method params request_id))

/-- `TravelMcpClient.list_tools` (lines 38-40). -/
def list_tools (transport : Transport) : Json :=
  send_request transport "tools/list" none 1

/-- The `params` dict built inline by `search_flights` (lines 44-51). -/
def search_flights_params (departure arrival date : String) :
    List (String × Json) :=
  [("name", Json.str "search_flights"),
   ("arguments", Json.obj [("departure", Json.str departure),
                           ("arrival", Json.str arrival),
                           ("date", Json.str date)])]

/-- `TravelMcpClient.search_flights` (lines 42-51). -/
def search_flights (transport : Transport)
    (departure arrival date : String) : Json :=
  send_request transport "tools/call"
    (some (search_flights_params departure arrival date)) 2

/-- Default of the `adults` parameter of `search_hotels` (line 53). -/
def default_adults : Int := 2

/-- The `arguments` dict built inline by `search_hotels` (lines 57-62). -/
def search_hotels_arguments (location check_in check_out : String)
    (adults : Int) : List (String × Json) :=
  [("location", Json.str location), ("checkIn", Json.str check_in),
   ("checkOut", Json.str check_out), ("adults", Json.num adults)]

/-- `TravelMcpClient.search_hotels` (lines 53-63). -/
def search_hotels (transport : Transport) (location check_in check_out : String)
    (adults : Int) : Json :=
  send_request transport "tools/call"
    (some [("name", Json.str "search_hotels"),
           ("arguments", Json.obj
             (search_hotels_arguments location check_in check_out adults))]) 3

/-- Python truthiness of an `Optional[str]`: `None` and `""` are falsy. -/
def py_truthy_opt_str (s : Option String) : Bool :=
  match s with
  | none => false
  | some s => s ≠ ""

/-- The `arguments` dict built by `search_restaurants` (lines 67-69):
`cuisine` is added only under `if cuisine:`. -/
def search_restaurants_arguments (location : String)
    (cuisine : Option String) : List (String × Json) :=
  let arguments := [("location", Json.str location)]
  if py_truthy_opt_str cuisine then
    arguments ++ [("cuisine", Json.str (cuisine.getD ""))]
  else arguments

/-- `TravelMcpClient.search_restaurants` (lines 65-74). -/
def search_restaurants (transport : Transport) (location : String)
    (cuisine : Option String) : Json :=
  send_request transport "tools/call"
    (some [("name", Json.str "search_restaurants"),
           ("arguments", Json.obj
             (search_restaurants_arguments location cuisine))]) 4

/-- The `arguments` dict built by `search_attractions` (lines 78-80). -/
def search_attractions_arguments (location : String)
    (category : Option String) : List (String × Json) :=
  let arguments := [("location", Json.str location)]
  if py_truthy_opt_str category then
    arguments ++ [("category", Json.str (category.getD ""))]
  else arguments

/-- `TravelMcpClient.search_attractions` (lines 76-85). -/
def search_attractions (transport : Transport) (location : String)
    (category : Option String) : Json :=
  send_request transport "tools/call"
    (some [("name", Json.str "search_attractions"),
           ("arguments", Json.obj
             (search_attractions_arguments location category))]) 5

/-- Default of the `max_results` parameter of `search_youtube_videos`
(line 89). -/
def default_max_results : Int := 20

/-- The `arguments` dict built by `search_youtube_videos` (lines 91-97):
`query` and `maxResults` are always present; the three optional filters
are added only under `if <filter>:`. -/
def search_youtube_videos_arguments (query : String)
    (duration upload_date sort_by : Option String) (max_results : Int) :
    List (String × Json) :=
  let a0 := [("query", Json.str query), ("maxResults", Json.num max_results)]
  let a1 := if py_truthy_opt_str duration then
    a0 ++ [("duration", Json.str (duration.getD ""))] else a0
  let a2 := if py_truthy_opt_str upload_date then
    a1 ++ [("uploadDate", Json.str (upload_date.getD ""))] else a1
  if py_truthy_opt_str sort_by then
    a2 ++ [("sortBy", Json.str (sort_by.getD ""))] else a2

/-- `TravelMcpClient.search_youtube_videos` (lines 87-102). -/
def search_youtube_videos (transport : Transport) (query : String)
    (duration upload_date sort_by : Option String) (max_results : Int) :
    Json :=
  send_request transport "tools/call"
    (some [("name", Json.str "search_youtube_videos"),
           ("arguments", Json.obj
             (search_youtube_videos_arguments query duration upload_date
               sort_by max_results))]) 6

/-- Whitespace skipping of Python's JSON parser (space, tab, newline,
carriage return). -/
def skip_ws : List Char → List Char
  | [] => []
  | c :: rest =>
    if c = ' ' ∨ c = '\t' ∨ c = '\n' ∨ c = '\r' then skip_ws rest
    else c :: rest

/-- Value of a hexadecimal digit, as used in JSON `\uXXXX` escapes. -/
def hex_val (c : Char) : Option Nat :=
  if '0' ≤ c ∧ c ≤ '9' then some (c.toNat - 48)
  else if 'a' ≤ c ∧ c ≤ 'f' then some (c.toNat - 87)
  else if 'A' ≤ c ∧ c ≤ 'F' then some (c.toNat - 55)
  else none

/-- Single-character JSON string escapes. -/
def simple_escape (c : Char) : Option Char :=
  if c = '"' then some '"'
  else if c = '\\' then some '\\'
  else if c = '/' then some '/'
  else if c = 'n' then some '\n'
  else if c = 't' then some '\t'
  else if c = 'r' then some '\r'
  else if c = 'b' then some (Char.ofNat 8)
  else if c = 'f' then some (Char.ofNat 12)
  else none

/-- Parse the remainder of a JSON string literal (opening quote already
consumed), returning its characters and the rest of the input.  Surrogate
pairs in `\u` escapes are not combined (Python combines them); lone
escapes map through `Char.ofNat`. -/
def parse_string_chars : List Char → Option (List Char × List Char)
  | [] => none
  | '"' :: rest => some ([], rest)
  | '\\' :: 'u' :: h1 :: h2 :: h3 :: h4 :: rest =>
    (match hex_val h1, hex_val h2, hex_val h3, hex_val h4 with
     | some a, some b, some c, some d =>
       (parse_string_chars rest).map
         (fun p => (Char.ofNat (((a * 16 + b) * 16 + c) * 16 + d) :: p.1, p.2))
     | _, _, _, _ => none)
  | '\\' :: e :: rest =>
    (match simple_escape e with
     | some c => (parse_string_chars rest).map (fun p => (c :: p.1, p.2))
     | none => none)
  | ['\\'] => none
  | c :: rest => (parse_string_chars rest).map (fun p => (c :: p.1, p.2))

/-- Take a maximal run of decimal digits. -/
def take_digits : List Char → (List Char × List Char)
  | [] => ([], [])
  | c :: rest =>
    if c.isDigit then
      let p := take_digits rest
      (c :: p.1, p.2)
    else ([], c :: rest)

/-- Numeric value of a digit run. -/
def digits_val (ds : List Char) : Nat :=
  ds.foldl (fun a c => a * 10 + (c.toNat - 48)) 0

/-- True when the input continues with a fraction or exponent: the
modelled parser accepts integer numerals only and rejects floats
(a documented restriction of the model of `json.loads`; the client itself
never produces floats). -/
def starts_float_tail : List Char → Bool
  | [] => false
  | c :: _ => c = '.' ∨ c = 'e' ∨ c = 'E'

/-- Parse a nonnegative integer numeral. -/
def parse_int_pos (cs : List Char) : Option (Json × List Char) :=
  match take_digits cs with
  | ([], _) => none
  | (ds, rest) =>
    if starts_float_tail rest then none
    else some (.num (digits_val ds : Int), rest)

/-- Parse the digits after a leading minus sign. -/
def parse_int_neg (cs : List Char) : Option (Json × List Char) :=
  match take_digits cs with
  | ([], _) => none
  | (ds, rest) =>
    if starts_float_tail rest then none
    else some (.num (-(digits_val ds : Int)), rest)

mutual

/-- Recursive-descent JSON value parser modelling `json.loads`; `fuel`
bounds the nesting recursion (callers supply more fuel than the input
length, which suffices since every nesting level consumes a bracket). -/
def parse_value : Nat → List Char → Option (Json × List Char)
  | 0, _ => none
  | fuel + 1, cs =>
    match skip_ws cs with
    | 'n' :: 'u' :: 'l' :: 'l' :: rest => some (.null, rest)
    | 't' :: 'r' :: 'u' :: 'e' :: rest => some (.bool true, rest)
    | 'f' :: 'a' :: 'l' :: 's' :: 'e' :: rest => some (.bool false, rest)
    | '"' :: rest =>
      (parse_string_chars rest).map (fun p => (.str (String.mk p.1), p.2))
    | '[' :: rest =>
      (match skip_ws rest with
       | ']' :: rest2 => some (.arr [], rest2)
       | cs2 => (parse_array_items fuel cs2).map (fun p => (.arr p.1, p.2)))
    | '\x7b' :: rest =>
      (match skip_ws rest with
       | '\x7d' :: rest2 => some (.obj [], rest2)
       | cs2 => (parse_object_items fuel cs2).map (fun p => (.obj p.1, p.2)))
    | '-' :: rest => parse_int_neg rest
    | c :: rest => if c.isDigit then parse_int_pos (c :: rest) else none
    | [] => none

/-- Comma-separated array items up to the closing bracket. -/
def parse_array_items : Nat → List Char → Option (List Json × List Char)
  | 0, _ => none
  | fuel + 1, cs =>
    match parse_value fuel cs with
    | none => none
    | some (v, rest) =>
      match skip_ws rest with
      | ',' :: rest2 =>
        (parse_array_items fuel rest2).map (fun p => (v :: p.1, p.2))
      | ']' :: rest2 => some ([v], rest2)
      | _ => none

/-- Comma-separated `"key": value` members up to the closing brace. -/
def parse_object_items : Nat → List Char →
    Option (List (String × Json) × List Char)
  | 0, _ => none
  | fuel + 1, cs =>
    match skip_ws cs with
    | '"' :: rest =>
      (match parse_string_chars rest with
       | none => none
       | some (kchars, rest2) =>
         match skip_ws rest2 with
         | ':' :: rest3 =>
           (match parse_value fuel rest3 with
            | none => none
            | some (v, rest4) =>
              match skip_ws rest4 with
              | ',' :: rest5 =>
                (parse_object_items fuel rest5).map
                  (fun p => ((String.mk kchars, v) :: p.1, p.2))
              | '\x7d' :: rest5 => some ([(String.mk kchars, v)], rest5)
              | _ => none)
         | _ => none)
    | _ => none

end

/-- `json.loads` on a whole string: parse one value and require only
whitespace to remain (Python raises `Extra data` otherwise, modelled as
`none`). -/
def json_loads (s : String) : Option Json :=
  match parse_value (2 * s.length + 2) s.data with
  | some (v, rest) => if (skip_ws rest).isEmpty then some v else none
  | none => none

/-- Lower-case hexadecimal digit. -/
def hex_digit (n : Nat) : Char :=
  if n < 10 then Char.ofNat (48 + n) else Char.ofNat (87 + n)

/-- JSON escaping of one character as done by `json.dumps` with
`ensure_ascii=False`: quote, backslash and control characters are
escaped, everything else is kept verbatim. -/
def json_escape_char (c : Char) : String :=
  if c = '"' then "\\\""
  else if c = '\\' then "\\\\"
  else if c = '\n' then "\\n"
  else if c = '\t' then "\\t"
  else if c = '\r' then "\\r"
  else if c = Char.ofNat 8 then "\\b"
  else if c = Char.ofNat 12 then "\\f"
  else if c.toNat < 32 then
    "\\u00" ++ String.mk [hex_digit (c.toNat / 16), hex_digit (c.toNat % 16)]
  else String.mk [c]

/-- JSON escaping of a string. -/
def json_escape_string (s : String) : String :=
  s.data.foldl (fun acc c => acc ++ json_escape_char c) ""

/-- `n` spaces of indentation. -/
def indent_spaces (n : Nat) : String := String.mk (List.replicate n ' ')

mutual

/-- Rendering of `json.dumps(data, indent=2, ensure_ascii=False)` at a
given current indentation: items sit on their own lines indented two
more spaces, keys are separated from values by a colon and a space. -/
def json_dumps_at : Json → Nat → String
  | .null, _ => "null"
  | .bool true, _ => "true"
  | .bool false, _ => "false"
  | .num n, _ => toString n
  | .str s, _ => "\"" ++ json_escape_string s ++ "\""
  | .arr [], _ => "[]"
  | .arr (x :: xs), ind =>
    "[\n" ++ json_dumps_items (x :: xs) (ind + 2) ++ "\n"
      ++ indent_spaces ind ++ "]"
  | .obj [], _ => "\x7b\x7d"
  | .obj (f :: fs), ind =>
    "\x7b\n" ++ json_dumps_fields (f :: fs) (ind + 2) ++ "\n"
      ++ indent_spaces ind ++ "\x7d"

/-- Array items, one per line, comma-separated. -/
def json_dumps_items : List Json → Nat → String
  | [], _ => ""
  | [x], ind => indent_spaces ind ++ json_dumps_at x ind
  | x :: y :: xs, ind =>
    indent_spaces ind ++ json_dumps_at x ind ++ ",\n"
      ++ json_dumps_items (y :: xs) ind

/-- Object members, one per line, comma-separated. -/
def json_dumps_fields : List (String × Json) → Nat → String
  | [], _ => ""
  | [(k, v)], ind =>
    indent_spaces ind ++ "\"" ++ json_escape_string k ++ "\": "
      ++ json_dumps_at v ind
  | (k, v) :: f :: fs, ind =>
    indent_spaces ind ++ "\"" ++ json_escape_string k ++ "\": "
      ++ json_dumps_at v ind ++ ",\n" ++ json_dumps_fields (f :: fs) ind

end

/-- `json.dumps(data, indent=2, ensure_ascii=False)` as called on line
114 of the source. -/
def json_dumps_pretty (j : Json) : String := json_dumps_at j 0

mutual

/-- Python `repr` of a parsed-JSON value (dicts and lists render with
single-quoted strings); quoting subtleties for strings that themselves
contain quotes are elided, the client only formats plain messages. -/
def py_repr : Json → String
  | .null => "None"
  | .bool true => "True"
  | .bool false => "False"
  | .num n => toString n
  | .str s => "\x27" ++ s ++ "\x27"
  | .arr xs => "[" ++ py_repr_items xs ++ "]"
  | .obj fs => "\x7b" ++ py_repr_fields fs ++ "\x7d"

/-- Comma-separated `repr`s of list elements. -/
def py_repr_items : List Json → String
  | [] => ""
  | [x] => py_repr x
  | x :: y :: xs => py_repr x ++ ", " ++ py_repr_items (y :: xs)

/-- Comma-separated `repr`s of dict members. -/
def py_repr_fields : List (String × Json) → String
  | [] => ""
  | [(k, v)] => "\x27" ++ k ++ "\x27: " ++ py_repr v
  | (k, v) :: f :: fs =>
    "\x27" ++ k ++ "\x27: " ++ py_repr v ++ ", " ++ py_repr_fields (f :: fs)

end

/-- Python `str` of a parsed-JSON value: strings print verbatim,
containers print as their `repr`. -/
def py_str (j : Json) : String :=
  match j with
  | .str s => s
  | _ => py_repr j

/-- The per-block body of the loop in `display_result` (lines 109-116):
a block whose `type` is `"text"` prints either the pretty-printed JSON of
its `text` (when it parses) or the raw `text`; other blocks print
nothing.  Output is modelled as the list of printed strings.  A block
that is not a dict, or lacks a `text` key, would raise in Python
(`AttributeError`/`KeyError`, caught only by the menu loop); such blocks
are outside every claim's domain and modelled as printing nothing. -/
def render_text_block (c : Json) : List String :=
  match jget c "type" with
  | some (Json.str t) =>
    if t = "text" then
      match jget c "text" with
      | some (Json.str txt) =>
        (match json_loads txt with
         | some data => [json_dumps_pretty data]
         | none => [txt])
      | _ => []
    else []
  | _ => []

/-- Header line `f"\n{service_emoji} {service_name} Results:"`. -/
def results_header (service_emoji service_name : String) : String :=
  "\n" ++ service_emoji ++ " " ++ service_name ++ " Results:"

/-- The divider line `"-" * 60`. -/
def results_divider : String := String.mk (List.replicate 60 '-')

/-- `display_result` (lines 104-122), output modelled as the list of
printed strings.  A non-list `content` value (Python would iterate a
dict's keys or a string's characters) and a string-valued `result`
containing `"content"` as a substring are outside every claim's domain
and modelled by the nearest branch. -/
def display_result (result : Json) (service_emoji service_name : String) :
    List String :=
  match jget result "result" with
  | some res =>
    (match jget res "content" with
     | some (Json.arr contents) =>
       [results_header service_emoji service_name, results_divider]
         ++ contents.foldr (fun c acc => render_text_block c ++ acc) []
     | some _ =>
       [results_header service_emoji service_name, results_divider]
     | none =>
       [results_header service_emoji service_name, results_divider,
        py_str res])
  | none => ["\n❌ Error: " ++ py_str result]

/-- Python `str.isdigit` on the ASCII inputs the client reads: nonempty
and all digits. -/
def py_isdigit (s : String) : Bool :=
  ¬ s.isEmpty ∧ s.data.all Char.isDigit

/-- Python `str.strip()` on the whitespace the client's inputs can
contain: drop leading and trailing whitespace characters. -/
def py_strip (s : String) : String :=
  String.mk
    (((s.data.dropWhile Char.isWhitespace).reverse.dropWhile
      Char.isWhitespace).reverse)

/-- Python `int(...)` on a digit string. -/
def digits_to_int (s : String) : Int :=
  (s.data.foldl (fun a c => a * 10 + (c.toNat - 48)) 0 : Nat)

/-- `handle_flight_search` (lines 124-143): `inputs` are the successive
`input()` results; printing is elided; the value is the network response
when a search is performed and `none` when the handler returns before
contacting the server.  The network side is abstracted as `client`
(instantiate with `search_flights transport`). -/
def handle_flight_search (client : String → String → String → Json)
    (inputs : List String) : Option Json :=
  let departure := py_strip (inputs.getD 0 "")
  if departure = "" then none else
  let arrival := py_strip (inputs.getD 1 "")
  if arrival = "" then none else
  let date := py_strip (inputs.getD 2 "")
  if date = "" then none else
  some (client departure arrival date)

/-- `handle_hotel_search` (lines 145-167): a non-digit adults entry falls
back to 2. -/
def handle_hotel_search (client : String → String → String → Int → Json)
    (inputs : List String) : Option Json :=
  let location := py_strip (inputs.getD 0 "")
  if location = "" then none else
  let check_in := py_strip (inputs.getD 1 "")
  if check_in = "" then none else
  let check_out := py_strip (inputs.getD 2 "")
  if check_out = "" then none else
  let adults_input := py_strip (inputs.getD 3 "")
  let adults := if py_isdigit adults_input then digits_to_int adults_input
                else 2
  some (client location check_in check_out adults)

/-- `handle_restaurant_search` (lines 169-183): an empty cuisine entry
becomes `None`. -/
def handle_restaurant_search (client : String → Option String → Json)
    (inputs : List String) : Option Json :=
  let location := py_strip (inputs.getD 0 "")
  if location = "" then none else
  let cuisine0 := py_strip (inputs.getD 1 "")
  let cuisine := if cuisine0 = "" then none else some cuisine0
  some (client location cuisine)

/-- `handle_attraction_search` (lines 185-199). -/
def handle_attraction_search (client : String → Option String → Json)
    (inputs : List String) : Option Json :=
  let location := py_strip (inputs.getD 0 "")
  if location = "" then none else
  let category0 := py_strip (inputs.getD 1 "")
  let category := if category0 = "" then none else some category0
  some (client location category)

/-- `handle_youtube_search` (lines 201-225): filters outside their
allowed vocabularies become `None`; a max-results entry outside 1..50
falls back to 20. -/
def handle_youtube_search
    (client : String → Option String → Option String → Option String →
      Int → Json) (inputs : List String) : Option Json :=
  let query := py_strip (inputs.getD 0 "")
  if query = "" then none else
  let duration0 := py_strip (inputs.getD 1 "")
  let duration := if ["short", "medium", "long"].contains duration0 then
    some duration0 else none
  let upload_date0 := py_strip (inputs.getD 2 "")
  let upload_date :=
    if ["hour", "today", "week", "month", "year"].contains upload_date0 then
      some upload_date0 else none
  let sort_by0 := py_strip (inputs.getD 3 "")
  let sort_by :=
    if ["relevance", "upload_date", "view_count", "rating"].contains sort_by0
    then some sort_by0 else none
  let mr0 := py_strip (inputs.getD 4 "")
  let max_results :=
    if py_isdigit mr0 ∧ 1 ≤ digits_to_int mr0 ∧ digits_to_int mr0 ≤ 50 then
      digits_to_int mr0 else 20
  some (client query duration upload_date sort_by max_results)

/-- Transport outcomes on which the `try` body of `send_request` raises a
`requests.exceptions.RequestException`: the post itself raised
(connection refused, timeout, ...), `raise_for_status()` raised (status
code in `[400, 600)`), or the response body failed to decode as JSON. -/
def is_transport_failure (o : HttpOutcome) : Bool :=
  match o with
  | .exn _ => true
  | .response status _ body =>
    (decide (400 ≤ status) && decide (status < 600)) ||
      (match body with | .error _ => true | .ok _ => false)

/-- A transport that reflects the posted payload back as a successful
response body, making the sent envelope observable in a wrapper's return
value. -/
def echo_transport : Transport :=
  fun p => .response 200 "OK" (.ok (.obj p))

theorem jlookup_append (l1 l2 : List (String × Json)) (k : String) :
    jlookup (l1 ++ l2) k
      = match jlookup l1 k with
        | some v => some v
        | none => jlookup l2 k := by
  induction l1 with
  | nil => simp [jlookup]
  | cons kv rest ih =>
    rw [List.cons_append]
    by_cases hk : kv.1 = k
    · simp [jlookup, hk]
    · simp [jlookup, hk, ih]

theorem mem_foldr_render (x : String) (b : Json) (contents : List Json)
    (hb : b ∈ contents) (hx : x ∈ render_text_block b) :
    x ∈ contents.foldr (fun c acc => render_text_block c ++ acc) [] := by
  induction contents with
  | nil => cases hb
  | cons c cs ih =>
    rcases List.mem_cons.mp hb with hb | hb
    · subst hb
      exact List.mem_append.mpr (Or.inl hx)
    · exact List.mem_append.mpr (Or.inr (ih hb))

/-- C1 (counterexample): the claim promises an `"error"` key for every
non-2xx status, but `raise_for_status()` only raises for statuses in
`[400, 600)`: a 304 response delivered with a well-formed JSON body is
returned as-is, with no `"error"` key. -/
theorem c1_non2xx_counterexample :
    send_request
      (fun _ => HttpOutcome.response 304 "304 Not Modified"
        (Except.ok (Json.obj [("result", Json.str "cached")])))
      "tools/list" none 1
      = Json.obj [("result", Json.str "cached")]
    ∧ jget (send_request
        (fun _ => HttpOutcome.response 304 "304 Not Modified"
          (Except.ok (Json.obj [("result", Json.str "cached")])))
        "tools/list" none 1) "error" = none :=
  ⟨rfl, rfl⟩

/-- C1 (amended): for every method, params and id, whenever the transport
outcome is a raised request exception (connection refused, timeout, ...),
an HTTP status in `[400, 600)`, or a malformed response body,
`send_request` returns a dictionary whose only key is `"error"`, bound to
a human-readable message string; being a total function of the outcome,
it never raises to its caller.  (A 3xx status delivered to the client is
returned like a success body.) -/
theorem c1_transport_failure_yields_error (transport : Transport)
    (method : String) (params : Option (List (String × Json)))
    (request_id : Int)
    (h : is_transport_failure
      (transport (build_payload method params request_id)) = true) :
    ∃ msg : String,
      send_request transport method params request_id
        = Json.obj [("error", Json.str ("Request failed: " ++ msg))] := by
  unfold send_request
  cases htr : transport (build_payload method params request_id) with
  | exn m => exact ⟨m, rfl⟩
  | response status statusMsg body =>
    rw [htr] at h
    rw [is_transport_failure.eq_def] at h
    by_cases hs : 400 ≤ status ∧ status < 600
    · exact ⟨statusMsg, by simp [handle_outcome, hs]⟩
    · cases body with
      | error m => exact ⟨m, by simp [handle_outcome, hs]⟩
      | ok j =>
        exfalso
        rw [Bool.or_eq_true, Bool.and_eq_true] at h
        rcases h with ⟨h1, h2⟩ | h
        · exact hs ⟨of_decide_eq_true h1, of_decide_eq_true h2⟩
        · cases h

theorem c1_transport_failure_yields_error_witness :
    is_transport_failure
      ((fun _ => HttpOutcome.exn "Connection refused")
        (build_payload "tools/list" none 1)) = true
    ∧ ∃ msg : String,
        send_request (fun _ => HttpOutcome.exn "Connection refused")
          "tools/list" none 1
          = Json.obj [("error", Json.str ("Request failed: " ++ msg))] :=
  ⟨rfl, c1_transport_failure_yields_error
    (fun _ => HttpOutcome.exn "Connection refused") "tools/list" none 1 rfl⟩

/-- C2: for every (departure, arrival, date) triple, `search_flights`
hands the transport the envelope built from method `"tools/call"` and
params whose inner name is `"search_flights"` and whose inner arguments
are exactly the departure/arrival/date mapping, in that order, with no
other keys. -/
theorem c2_search_flights_request (transport : Transport)
    (departure arrival date : String) :
    search_flights transport departure arrival date
      = handle_outcome (transport (build_payload "tools/call"
          (some (search_flights_params departure arrival date)) 2))
    ∧ jlookup (build_payload "tools/call"
        (some (search_flights_params departure arrival date)) 2) "method"
      = some (Json.str "tools/call")
    ∧ jlookup (build_payload "tools/call"
        (some (search_flights_params departure arrival date)) 2) "params"
      = some (Json.obj (search_flights_params departure arrival date))
    ∧ jlookup (search_flights_params departure arrival date) "name"
      = some (Json.str "search_flights")
    ∧ jlookup (search_flights_params departure arrival date) "arguments"
      = some (Json.obj [("departure", Json.str departure),
                        ("arrival", Json.str arrival),
                        ("date", Json.str date)]) :=
  ⟨rfl, rfl, rfl, rfl, rfl⟩

/-- C7: every envelope built by `send_request` carries the constant
protocol version `"2.0"`, the caller-supplied id and the method name;
the params mapping appears only when non-empty and is absent when the
caller passes `None` or an empty mapping — and `send_request` posts
exactly this envelope. -/
theorem c7_envelope_shape (transport : Transport) (method : String)
    (params : Option (List (String × Json))) (request_id : Int)
    (kv : String × Json) (rest : List (String × Json)) :
    jlookup (build_payload method params request_id) "jsonrpc"
      = some (Json.str "2.0")
    ∧ jlookup (build_payload method params request_id) "id"
      = some (Json.num request_id)
    ∧ jlookup (build_payload method params request_id) "method"
      = some (Json.str method)
    ∧ jlookup (build_payload method none request_id) "params" = none
    ∧ jlookup (build_payload method (some []) request_id) "params" = none
    ∧ jlookup (build_payload method (some (kv :: rest)) request_id) "params"
      = some (Json.obj (kv :: rest))
    ∧ send_request transport method params request_id
      = handle_outcome (transport (build_payload method params request_id)) := by
  refine ⟨?_, ?_, ?_, rfl, rfl, rfl, rfl⟩ <;>
    rcases params with _ | (_ | ⟨kv2, rest2⟩) <;> rfl

/-- C8: each convenience wrapper posts its fixed request id — 1 for
`list_tools`, 2 for `search_flights`, 3 for `search_hotels`, 4 for
`search_restaurants`, 5 for `search_attractions`, 6 for
`search_youtube_videos` — for all argument values. -/
theorem c8_fixed_request_ids
    (departure arrival date location check_in check_out query : String)
    (cuisine category duration upload_date sort_by : Option String)
    (adults max_results : Int) :
    jget (list_tools echo_transport) "id" = some (Json.num 1)
    ∧ jget (search_flights echo_transport departure arrival date) "id"
      = some (Json.num 2)
    ∧ jget (search_hotels echo_transport location check_in check_out adults)
        "id" = some (Json.num 3)
    ∧ jget (search_restaurants echo_transport location cuisine) "id"
      = some (Json.num 4)
    ∧ jget (search_attractions echo_transport location category) "id"
      = some (Json.num 5)
    ∧ jget (search_youtube_videos echo_transport query duration upload_date
        sort_by max_results) "id" = some (Json.num 6) :=
  ⟨rfl, rfl, rfl, rfl, rfl, rfl⟩

/-- C10: at the wrapper interface the empty string for an optional field
behaves exactly like omitting it: restaurants and attractions then build
an arguments mapping holding only the `location` key, because `if x:`
treats `""` as absent. -/
theorem c10_empty_string_like_omitted (location : String) :
    search_restaurants_arguments location (some "")
      = [("location", Json.str location)]
    ∧ search_restaurants_arguments location (some "")
      = search_restaurants_arguments location none
    ∧ search_attractions_arguments location (some "")
      = [("location", Json.str location)]
    ∧ search_attractions_arguments location (some "")
      = search_attractions_arguments location none :=
  ⟨rfl, rfl, rfl, rfl⟩

/-- C3: an omitted optional parameter (`None`) leaves its key entirely
out of the inner arguments mapping: restaurants without cuisine and
attractions without category build exactly `{location}`, and each of the
three YouTube filters is absent whenever it is `None`, whatever the other
filters are. -/
theorem c3_omitted_optionals_absent (location query : String)
    (duration upload_date sort_by : Option String) (max_results : Int) :
    search_restaurants_arguments location none
      = [("location", Json.str location)]
    ∧ search_attractions_arguments location none
      = [("location", Json.str location)]
    ∧ jlookup (search_youtube_videos_arguments query none upload_date
        sort_by max_results) "duration" = none
    ∧ jlookup (search_youtube_videos_arguments query duration none
        sort_by max_results) "uploadDate" = none
    ∧ jlookup (search_youtube_videos_arguments query duration upload_date
        none max_results) "sortBy" = none := by
  refine ⟨rfl, rfl, ?_, ?_, ?_⟩ <;>
    rcases duration with _ | d <;>
    rcases upload_date with _ | u <;>
    rcases sort_by with _ | s <;>
    simp only [search_youtube_videos_arguments, py_truthy_opt_str] <;>
    split_ifs <;>
    simp_all [jlookup_append, jlookup]

/-- C9: the defaulted numeric parameters are always present in the inner
arguments, unlike the omitted optionals: `search_hotels` always sends an
`adults` key (2 at the declared default) and `search_youtube_videos`
always sends a `maxResults` key (20 at the declared default). -/
theorem c9_defaulted_numerics_present
    (location check_in check_out query : String)
    (duration upload_date sort_by : Option String)
    (adults max_results : Int) :
    jlookup (search_hotels_arguments location check_in check_out adults)
      "adults" = some (Json.num adults)
    ∧ jlookup (search_hotels_arguments location check_in check_out
        default_adults) "adults" = some (Json.num 2)
    ∧ jlookup (search_youtube_videos_arguments query duration upload_date
        sort_by max_results) "maxResults" = some (Json.num max_results)
    ∧ jlookup (search_youtube_videos_arguments query duration upload_date
        sort_by default_max_results) "maxResults" = some (Json.num 20) := by
  refine ⟨rfl, rfl, ?_, ?_⟩ <;>
    rcases duration with _ | d <;>
    rcases upload_date with _ | u <;>
    rcases sort_by with _ | s <;>
    simp only [search_youtube_videos_arguments, py_truthy_opt_str,
      default_max_results] <;>
    split_ifs <;>
    simp_all [jlookup_append, jlookup]

theorem display_result_content_branch (response res : Json)
    (contents : List Json) (emoji name : String)
    (hres : jget response "result" = some res)
    (hcontent : jget res "content" = some (Json.arr contents)) :
    display_result response emoji name
      = [results_header emoji name, results_divider]
        ++ contents.foldr (fun c acc => render_text_block c ++ acc) [] := by
  simp only [display_result, hres, hcontent]

/-- C4: whenever the response's result holds a content list, each block
typed `"text"` is rendered by parsing its text as JSON and printing the
two-space-indented dump when that succeeds, or printing the raw text
unchanged when parsing fails; in particular the block text
`{"a":1}` prints as the pretty JSON `{\n  "a": 1\n}` and the block text
`not json` prints literally. -/
theorem c4_formatter_text_blocks (response res : Json)
    (contents : List Json) (b : Json) (emoji name txt : String)
    (hres : jget response "result" = some res)
    (hcontent : jget res "content" = some (Json.arr contents))
    (hb : b ∈ contents)
    (htype : jget b "type" = some (Json.str "text"))
    (htext : jget b "text" = some (Json.str txt)) :
    ((∀ data, json_loads txt = some data →
        json_dumps_pretty data ∈ display_result response emoji name)
      ∧ (json_loads txt = none → txt ∈ display_result response emoji name))
    ∧ display_result (Json.obj [("result", Json.obj [("content",
        Json.arr [Json.obj [("type", Json.str "text"),
          ("text", Json.str "\x7b\"a\":1\x7d")]])])]) emoji name
      = [results_header emoji name, results_divider,
         json_dumps_pretty (Json.obj [("a", Json.num 1)])]
    ∧ json_dumps_pretty (Json.obj [("a", Json.num 1)])
      = "\x7b\n  \"a\": 1\n\x7d"
    ∧ display_result (Json.obj [("result", Json.obj [("content",
        Json.arr [Json.obj [("type", Json.str "text"),
          ("text", Json.str "not json")]])])]) emoji name
      = [results_header emoji name, results_divider, "not json"] := by
  rw [display_result_content_branch response res contents emoji name
    hres hcontent]
  refine ⟨⟨?_, ?_⟩, rfl, rfl, rfl⟩
  · intro data hdata
    refine List.mem_append.mpr (Or.inr (mem_foldr_render _ b contents hb ?_))
    simp [render_text_block, htype, htext, hdata]
  · intro hdata
    refine List.mem_append.mpr (Or.inr (mem_foldr_render _ b contents hb ?_))
    simp [render_text_block, htype, htext, hdata]

theorem c4_formatter_text_blocks_witness :
    "not json" ∈ display_result (Json.obj [("result", Json.obj [("content",
      Json.arr [Json.obj [("type", Json.str "text"),
        ("text", Json.str "not json")]])])]) "📺" "YouTube" :=
  ((c4_formatter_text_blocks
    (Json.obj [("result", Json.obj [("content",
      Json.arr [Json.obj [("type", Json.str "text"),
        ("text", Json.str "not json")]])])])
    (Json.obj [("content", Json.arr [Json.obj [("type", Json.str "text"),
      ("text", Json.str "not json")]])])
    [Json.obj [("type", Json.str "text"), ("text", Json.str "not json")]]
    (Json.obj [("type", Json.str "text"), ("text", Json.str "not json")])
    "📺" "YouTube" "not json" rfl rfl (List.mem_singleton_self _)
    rfl rfl).1).2 rfl

/-- C5: a response dict with no `"result"` key goes to the error branch
of the formatter, whose single output line is the error marker followed
by the rendered response; for `{"error": "boom"}` that line contains the
string `boom`. -/
theorem c5_formatter_error_branch (fields : List (String × Json))
    (emoji name : String)
    (h : jlookup fields "result" = none) :
    display_result (Json.obj fields) emoji name
      = ["\n❌ Error: " ++ py_str (Json.obj fields)]
    ∧ display_result (Json.obj [("error", Json.str "boom")]) emoji name
      = ["\n❌ Error: \x7b\x27error\x27: \x27boom\x27\x7d"]
    ∧ ∃ pre post : String,
        "\n❌ Error: \x7b\x27error\x27: \x27boom\x27\x7d"
          = pre ++ "boom" ++ post := by
  refine ⟨?_, rfl, "\n❌ Error: \x7b\x27error\x27: \x27", "\x27\x7d", rfl⟩
  simp [display_result, jget, h]

theorem c5_formatter_error_branch_witness :
    display_result (Json.obj [("error", Json.str "boom")]) "✈️" "Flight"
      = ["\n❌ Error: " ++ py_str (Json.obj [("error", Json.str "boom")])] :=
  (c5_formatter_error_branch [("error", Json.str "boom")] "✈️" "Flight"
    rfl).1

/-- C6: every interactive search handler returns to the menu without
touching the network when a required field is entered empty (after
stripping): the result is `none` whatever the client, for flight
(departure, arrival or date empty), hotel (location, check-in or
check-out empty), restaurant, attraction (location empty) and YouTube
(query empty). -/
theorem c6_empty_required_field_no_network (inputs : List String)
    (fc : String → String → String → Json)
    (hc : String → String → String → Int → Json)
    (rc ac : String → Option String → Json)
    (yc : String → Option String → Option String → Option String → Int →
      Json) :
    ((py_strip (inputs.getD 0 "") = "" ∨ py_strip (inputs.getD 1 "") = ""
        ∨ py_strip (inputs.getD 2 "") = "") →
      handle_flight_search fc inputs = none)
    ∧ ((py_strip (inputs.getD 0 "") = "" ∨ py_strip (inputs.getD 1 "") = ""
        ∨ py_strip (inputs.getD 2 "") = "") →
      handle_hotel_search hc inputs = none)
    ∧ (py_strip (inputs.getD 0 "") = "" →
      handle_restaurant_search rc inputs = none)
    ∧ (py_strip (inputs.getD 0 "") = "" →
      handle_attraction_search ac inputs = none)
    ∧ (py_strip (inputs.getD 0 "") = "" →
      handle_youtube_search yc inputs = none) := by
  refine ⟨?_, ?_, ?_, ?_, ?_⟩ <;> intro h
  · rcases h with h | h | h <;>
      simp only [handle_flight_search, h] <;> split_ifs <;> simp_all
  · rcases h with h | h | h <;>
      simp only [handle_hotel_search, h] <;> split_ifs <;> simp_all
  · simp [handle_restaurant_search]
    simpa using h
  · simp [handle_attraction_search]
    simpa using h
  · simp [handle_youtube_search]
    simpa using h

theorem c6_empty_required_field_no_network_witness :
    handle_flight_search (fun _ _ _ => Json.null) [] = none
    ∧ handle_hotel_search (fun _ _ _ _ => Json.null) [] = none
    ∧ handle_restaurant_search (fun _ _ => Json.null) [] = none
    ∧ handle_attraction_search (fun _ _ => Json.null) [] = none
    ∧ handle_youtube_search (fun _ _ _ _ _ => Json.null) [] = none := by
  have h := c6_empty_required_field_no_network []
    (fun _ _ _ => Json.null) (fun _ _ _ _ => Json.null)
    (fun _ _ => Json.null) (fun _ _ => Json.null)
    (fun _ _ _ _ _ => Json.null)
  exact ⟨h.1 (Or.inl (by decide)), h.2.1 (Or.inl (by decide)),
    h.2.2.1 (by decide), h.2.2.2.1 (by decide), h.2.2.2.2 (by decide)⟩
